import Mathlib

/-!
Verification development for the Unified Audio Routing & Analysis Engine
(src/services/audioUtils.ts of yemins/visualizer).

Shallow embedding conventions:
* JavaScript numbers that only ever hold exact values in the executions we
  reason about are modelled as rationals (samples, durations) or naturals
  (sizes, sample rates, byte values).
* The `x | 0` coercion of JavaScript is truncation toward zero (`jsTrunc`);
  the values involved stay far inside the signed 32-bit range, so no
  wrap-around is modelled.
* `DataView.setUint16/setUint32` with the little-endian flag become the
  byte lists `u16LE`/`u32LE`; `setInt16` becomes `int16LE` (two's
  complement).
* The WebIDL `unsigned long` conversion applied to the possibly
  non-integral `duration * sampleRate` argument of the
  `OfflineAudioContext` constructor truncates toward zero.
-/

namespace Visualizer

/-! ### PCM encoder: `audioBufferToWav` (audioUtils.ts lines 67-116) -/

/-- JavaScript `| 0`: truncation toward zero, written via `Int.floor`. -/
def jsTrunc (x : ℚ) : ℤ := if x < 0 then -⌊-x⌋ else ⌊x⌋

/-- Line 107: `Math.max(-1, Math.min(1, s))`. -/
def clamp (x : ℚ) : ℚ := max (-1) (min 1 x)

/-- Line 108: `(0.5 + sample < 0 ? sample * 32768 : sample * 32767) | 0`
applied to the clamped sample.  JavaScript operator precedence parses the
condition as `(0.5 + sample) < 0`, i.e. `sample < -0.5`. -/
def quantizeSample (s : ℚ) : ℤ :=
  jsTrunc (if (1/2 : ℚ) + clamp s < 0 then clamp s * 32768 else clamp s * 32767)

/-- Claim C1's quantizer, written from the spec's words: clamp, then
`q = sample < 0 ? round(sample*32768) : round(sample*32767)`. -/
def quantizeSpecC1 (s : ℚ) : ℤ :=
  if clamp s < 0 then round (clamp s * 32768) else round (clamp s * 32767)

/-- The quantizer the code actually implements, stated as amended claim C1:
negative branch taken only below -1/2 (an operator-precedence artifact of
`0.5 + sample < 0`) and truncation toward zero (`| 0`), not rounding. -/
def quantizeAmendedC1 (s : ℚ) : ℤ :=
  if clamp s < -(1/2) then jsTrunc (clamp s * 32768) else jsTrunc (clamp s * 32767)

/-- An `AudioBuffer` as the encoder consumes it: sample rate, frame count
(`buffer.length`), and per-channel sample arrays (`getChannelData`). -/
structure AudioData where
  sampleRate : ℕ
  numFrames : ℕ
  channels : List (List ℚ)

/-- Sample access `channels[ch][i]` (on well-formed buffers the default 0 is never
read). -/
def sampleAt (b : AudioData) (ch i : ℕ) : ℚ := (b.channels.getD ch []).getD i 0

/-- Helper `setUint16(pos, n, true)`: two little-endian bytes. -/
def u16LE (n : ℕ) : List ℕ := [n % 256, n / 256 % 256]

/-- Helper `setUint32(pos, n, true)`: four little-endian bytes. -/
def u32LE (n : ℕ) : List ℕ :=
  [n % 256, n / 256 % 256, n / 65536 % 256, n / 16777216 % 256]

/-- Write `setInt16(pos, v, true)`: two's-complement little-endian bytes. -/
def int16LE (v : ℤ) : List ℕ := u16LE (v % 65536).toNat

/-- The 44-byte header written by lines 86-98, in write order.
`length` is the total byte length computed at line 69
(`buffer.length * numOfChan * 2 + 44`); the final field is
`length - pos - 4` with `pos = 40`, i.e. `length - 44`. -/
def wavHeader (b : AudioData) : List ℕ :=
  u32LE 0x46464952 ++
  u32LE (b.numFrames * b.channels.length * 2 + 44 - 8) ++
  u32LE 0x45564157 ++
  u32LE 0x20746d66 ++
  u32LE 16 ++
  u16LE 1 ++
  u16LE b.channels.length ++
  u32LE b.sampleRate ++
  u32LE (b.sampleRate * 2 * b.channels.length) ++
  u16LE (b.channels.length * 2) ++
  u16LE 16 ++
  u32LE 0x61746164 ++
  u32LE (b.numFrames * b.channels.length * 2 + 44 - 44)

/-- The interleaved data section written by the loop at lines 104-113:
frames outermost, channels innermost. -/
def wavDataBytes (b : AudioData) : List ℕ :=
  (List.range b.numFrames).flatMap fun i =>
    (List.range b.channels.length).flatMap fun ch =>
      int16LE (quantizeSample (sampleAt b ch i))

/-- Function `audioBufferToWav`: header followed by interleaved 16-bit PCM data. -/
def audioBufferToWav (b : AudioData) : List ℕ := wavHeader b ++ wavDataBytes b

/-- Little-endian 16-bit read at a byte offset. -/
def readU16 (bs : List ℕ) (off : ℕ) : ℕ :=
  bs.getD off 0 + 256 * bs.getD (off + 1) 0

/-- Little-endian 32-bit read at a byte offset. -/
def readU32 (bs : List ℕ) (off : ℕ) : ℕ :=
  bs.getD off 0 + 256 * bs.getD (off + 1) 0 + 65536 * bs.getD (off + 2) 0 +
    16777216 * bs.getD (off + 3) 0

lemma quantizeSample_one : quantizeSample 1 = 32767 := by
  norm_num [quantizeSample, clamp, jsTrunc]

lemma quantizeSample_negOne : quantizeSample (-1) = -32768 := by
  norm_num [quantizeSample, clamp, jsTrunc]

lemma quantizeSample_zero : quantizeSample 0 = 0 := by
  norm_num [quantizeSample, clamp, jsTrunc]

lemma quantizeSample_half : quantizeSample (1/2) = 16383 := by
  norm_num [quantizeSample, clamp, jsTrunc]

/-- C1: the spec's quantizer rounds, the code truncates: at sample 1/2 the
code stores 16383 (`(0.5*32767) | 0`) while the spec's
`round(0.5*32767) = round(16383.5)` is 16384. -/
theorem C1_counterexample :
    quantizeSample (1/2) = 16383 ∧ quantizeSpecC1 (1/2) = 16384 ∧
    quantizeSample (1/2) ≠ quantizeSpecC1 (1/2) := by
  have h1 : quantizeSample (1/2) = 16383 := quantizeSample_half
  have h2 : quantizeSpecC1 (1/2) = 16384 := by
    rw [quantizeSpecC1]
    rw [if_neg (by norm_num [clamp])]
    rw [show clamp (1/2) * 32767 = 32767/2 by norm_num [clamp]]
    rw [round_eq]
    norm_num
  exact ⟨h1, h2, by rw [h1, h2]; decide⟩

/-- C1 (amended): for every sample s, the encoder clamps s to [-1, 1] and
quantizes the clamped value c as `q = trunc(c*32768)` if `c < -0.5` and
`q = trunc(c*32767)` otherwise, where trunc is truncation toward zero. -/
theorem C1_amended_quantizer (s : ℚ) : quantizeSample s = quantizeAmendedC1 s := by
  rw [quantizeSample, quantizeAmendedC1]
  by_cases h : clamp s < -(1/2)
  · rw [if_pos h, if_pos (by linarith)]
  · rw [if_neg h, if_neg (by intro hc; exact h (by linarith))]

/-- C1 amended, at a concrete sample. -/
theorem C1_amended_quantizer_witness :
    quantizeSample (-3/4) = quantizeAmendedC1 (-3/4) :=
  C1_amended_quantizer (-3/4)

/-- The buffer of the C6 scenario: 2 channels, 2 frames, frame 0 holding
samples (1.0, -1.0) and frame 1 holding (0.0, 0.5); channel-major storage
as `getChannelData` exposes it. -/
def wavTestBuf : AudioData := ⟨44100, 2, [[1, 0], [-1, 1/2]]⟩

lemma wavTestBuf_dataBytes :
    wavDataBytes wavTestBuf = [0xFF, 0x7F, 0x00, 0x80, 0x00, 0x00, 0xFF, 0x3F] := by
  have h0 : sampleAt wavTestBuf 0 0 = 1 := rfl
  have h1 : sampleAt wavTestBuf 1 0 = -1 := rfl
  have h2 : sampleAt wavTestBuf 0 1 = 0 := rfl
  have h3 : sampleAt wavTestBuf 1 1 = 1/2 := rfl
  have hrange : List.range 2 = [0, 1] := rfl
  rw [wavDataBytes]
  rw [show wavTestBuf.numFrames = 2 from rfl, show wavTestBuf.channels.length = 2 from rfl]
  rw [hrange]
  simp only [List.flatMap_cons, List.flatMap_nil, List.append_nil]
  rw [h0, h1, h2, h3, quantizeSample_one, quantizeSample_negOne,
    quantizeSample_zero, quantizeSample_half]
  decide

/-- C6: the claimed data bytes `7F FF, 00 80, 00 00, 00 40` are not what
the encoder produces for the scenario buffer. -/
theorem C6_counterexample :
    wavDataBytes wavTestBuf ≠ [0x7F, 0xFF, 0x00, 0x80, 0x00, 0x00, 0x00, 0x40] := by
  rw [wavTestBuf_dataBytes]
  decide

/-- C6 (amended): encoding the 2-channel, 2-frame buffer with samples
[[1.0,-1.0],[0.0,0.5]] produces data bytes `FF 7F`, `00 80`, `00 00`,
`FF 3F` in frame-interleaved order (int16 values 32767, -32768, 0, 16383:
the last sample truncates, it does not round to 16384). -/
theorem C6_amended_bytes :
    wavDataBytes wavTestBuf = [0xFF, 0x7F, 0x00, 0x80, 0x00, 0x00, 0xFF, 0x3F] :=
  wavTestBuf_dataBytes

lemma length_flatMap_const {α β : Type} (l : List α) (f : α → List β) (k : ℕ)
    (h : ∀ a ∈ l, (f a).length = k) : (l.flatMap f).length = l.length * k := by
  induction l with
  | nil => simp
  | cons a t ih =>
    simp only [List.flatMap_cons, List.length_append, List.length_cons]
    rw [h a (by simp), ih (fun x hx => h x (by simp [hx]))]
    ring

lemma wavDataBytes_length (b : AudioData) :
    (wavDataBytes b).length = b.numFrames * b.channels.length * 2 := by
  have hinner : ∀ i : ℕ, ((List.range b.channels.length).flatMap fun ch =>
      int16LE (quantizeSample (sampleAt b ch i))).length = b.channels.length * 2 := by
    intro i
    have h2 := length_flatMap_const (List.range b.channels.length)
      (fun ch => int16LE (quantizeSample (sampleAt b ch i))) 2 (fun ch _ => rfl)
    rw [h2, List.length_range]
  rw [wavDataBytes,
    length_flatMap_const _ _ (b.channels.length * 2) (fun i _ => hinner i),
    List.length_range]
  ring

lemma wavHeader_length (b : AudioData) : (wavHeader b).length = 44 := by
  simp [wavHeader, u32LE, u16LE]

lemma u16LE_length (n : ℕ) : (u16LE n).length = 2 := rfl

lemma u32LE_length (n : ℕ) : (u32LE n).length = 4 := rfl

lemma getD_append_right_off (pre l : List ℕ) (n j : ℕ) (h : pre.length ≤ n) :
    (pre ++ l).getD (n + j) 0 = l.getD (n - pre.length + j) 0 := by
  rw [List.getD_append_right _ _ _ _ (by omega)]
  congr 1
  omega

lemma readU32_skip (pre l : List ℕ) (n : ℕ) (h : pre.length ≤ n) :
    readU32 (pre ++ l) n = readU32 l (n - pre.length) := by
  have h0 := getD_append_right_off pre l n 0 h
  have h1 := getD_append_right_off pre l n 1 h
  have h2 := getD_append_right_off pre l n 2 h
  have h3 := getD_append_right_off pre l n 3 h
  simp only [Nat.add_zero] at h0
  rw [readU32, readU32, h0, h1, h2, h3]

lemma readU16_skip (pre l : List ℕ) (n : ℕ) (h : pre.length ≤ n) :
    readU16 (pre ++ l) n = readU16 l (n - pre.length) := by
  have h0 := getD_append_right_off pre l n 0 h
  have h1 := getD_append_right_off pre l n 1 h
  simp only [Nat.add_zero] at h0
  rw [readU16, readU16, h0, h1]

lemma readU32_here (x : ℕ) (l : List ℕ) :
    readU32 (u32LE x ++ l) 0 =
      x % 256 + 256 * (x / 256 % 256) + 65536 * (x / 65536 % 256) +
        16777216 * (x / 16777216 % 256) := by
  simp [readU32, u32LE, List.getD]

lemma readU16_here (x : ℕ) (l : List ℕ) :
    readU16 (u16LE x ++ l) 0 = x % 256 + 256 * (x / 256 % 256) := by
  simp [readU16, u16LE, List.getD]

lemma wav_read_0 (b : AudioData) : readU32 (audioBufferToWav b) 0 = 0x46464952 := by
  simp [audioBufferToWav, wavHeader, List.append_assoc, readU32_skip, readU32_here,
    u32LE_length, u16LE_length]

lemma wav_read_4 (b : AudioData)
    (hLen : b.numFrames * b.channels.length * 2 + 44 < 4294967296) :
    readU32 (audioBufferToWav b) 4 = b.numFrames * b.channels.length * 2 + 44 - 8 := by
  have e : readU32 (audioBufferToWav b) 4 =
      (b.numFrames * b.channels.length * 2 + 44 - 8) % 256 +
      256 * ((b.numFrames * b.channels.length * 2 + 44 - 8) / 256 % 256) +
      65536 * ((b.numFrames * b.channels.length * 2 + 44 - 8) / 65536 % 256) +
      16777216 * ((b.numFrames * b.channels.length * 2 + 44 - 8) / 16777216 % 256) := by
    simp [audioBufferToWav, wavHeader, List.append_assoc, readU32_skip, readU32_here,
      u32LE_length, u16LE_length]
  rw [e]
  generalize b.numFrames * b.channels.length * 2 = x at hLen ⊢
  omega

lemma wav_read_8 (b : AudioData) : readU32 (audioBufferToWav b) 8 = 0x45564157 := by
  simp [audioBufferToWav, wavHeader, List.append_assoc, readU32_skip, readU32_here,
    u32LE_length, u16LE_length]

lemma wav_read_12 (b : AudioData) : readU32 (audioBufferToWav b) 12 = 0x20746d66 := by
  simp [audioBufferToWav, wavHeader, List.append_assoc, readU32_skip, readU32_here,
    u32LE_length, u16LE_length]

lemma wav_read_16 (b : AudioData) : readU32 (audioBufferToWav b) 16 = 16 := by
  simp [audioBufferToWav, wavHeader, List.append_assoc, readU32_skip, readU32_here,
    u32LE_length, u16LE_length]

lemma wav_read_20 (b : AudioData) : readU16 (audioBufferToWav b) 20 = 1 := by
  simp [audioBufferToWav, wavHeader, List.append_assoc, readU16_skip, readU16_here,
    u32LE_length, u16LE_length]

lemma wav_read_22 (b : AudioData) (hC : b.channels.length < 32768) :
    readU16 (audioBufferToWav b) 22 = b.channels.length := by
  have e : readU16 (audioBufferToWav b) 22 =
      b.channels.length % 256 + 256 * (b.channels.length / 256 % 256) := by
    simp [audioBufferToWav, wavHeader, List.append_assoc, readU16_skip, readU16_here,
      u32LE_length, u16LE_length]
  rw [e]
  generalize b.channels.length = x at hC ⊢
  omega

lemma wav_read_24 (b : AudioData) (hR : b.sampleRate < 4294967296) :
    readU32 (audioBufferToWav b) 24 = b.sampleRate := by
  have e : readU32 (audioBufferToWav b) 24 =
      b.sampleRate % 256 + 256 * (b.sampleRate / 256 % 256) +
      65536 * (b.sampleRate / 65536 % 256) +
      16777216 * (b.sampleRate / 16777216 % 256) := by
    simp [audioBufferToWav, wavHeader, List.append_assoc, readU32_skip, readU32_here,
      u32LE_length, u16LE_length]
  rw [e]
  generalize b.sampleRate = x at hR ⊢
  omega

lemma wav_read_28 (b : AudioData)
    (hBR : b.sampleRate * 2 * b.channels.length < 4294967296) :
    readU32 (audioBufferToWav b) 28 = b.sampleRate * b.channels.length * 2 := by
  have e : readU32 (audioBufferToWav b) 28 =
      (b.sampleRate * 2 * b.channels.length) % 256 +
      256 * (b.sampleRate * 2 * b.channels.length / 256 % 256) +
      65536 * (b.sampleRate * 2 * b.channels.length / 65536 % 256) +
      16777216 * (b.sampleRate * 2 * b.channels.length / 16777216 % 256) := by
    simp [audioBufferToWav, wavHeader, List.append_assoc, readU32_skip, readU16_skip,
      readU32_here, u32LE_length, u16LE_length]
  rw [e, show b.sampleRate * b.channels.length * 2 = b.sampleRate * 2 * b.channels.length
    from by ring]
  generalize b.sampleRate * 2 * b.channels.length = x at hBR ⊢
  omega

lemma wav_read_32 (b : AudioData) (hC : b.channels.length < 32768) :
    readU16 (audioBufferToWav b) 32 = b.channels.length * 2 := by
  have e : readU16 (audioBufferToWav b) 32 =
      (b.channels.length * 2) % 256 + 256 * (b.channels.length * 2 / 256 % 256) := by
    simp [audioBufferToWav, wavHeader, List.append_assoc, readU32_skip, readU16_skip,
      readU16_here, u32LE_length, u16LE_length]
  rw [e]
  generalize b.channels.length = x at hC ⊢
  omega

lemma wav_read_34 (b : AudioData) : readU16 (audioBufferToWav b) 34 = 16 := by
  simp [audioBufferToWav, wavHeader, List.append_assoc, readU32_skip, readU16_skip,
    readU16_here, u32LE_length, u16LE_length]

lemma wav_read_36 (b : AudioData) : readU32 (audioBufferToWav b) 36 = 0x61746164 := by
  simp [audioBufferToWav, wavHeader, List.append_assoc, readU32_skip, readU16_skip,
    readU32_here, u32LE_length, u16LE_length]

lemma wav_read_40 (b : AudioData)
    (hLen : b.numFrames * b.channels.length * 2 + 44 < 4294967296) :
    readU32 (audioBufferToWav b) 40 = b.numFrames * b.channels.length * 2 := by
  have e : readU32 (audioBufferToWav b) 40 =
      (b.numFrames * b.channels.length * 2 + 44 - 44) % 256 +
      256 * ((b.numFrames * b.channels.length * 2 + 44 - 44) / 256 % 256) +
      65536 * ((b.numFrames * b.channels.length * 2 + 44 - 44) / 65536 % 256) +
      16777216 * ((b.numFrames * b.channels.length * 2 + 44 - 44) / 16777216 % 256) := by
    simp [audioBufferToWav, wavHeader, List.append_assoc, readU32_skip, readU16_skip,
      readU32_here, u32LE_length, u16LE_length]
  rw [e]
  generalize b.numFrames * b.channels.length * 2 = x at hLen ⊢
  omega

/-- C7: for every buffer of N frames, C channels at rate R (with the
declared quantities inside their 16/32-bit fields), the encoder emits
N*C*2 + 44 bytes; the header declares tag "RIFF", chunk size total - 8,
format "WAVE", subchunk "fmt " of size 16 with format code 1, C channels,
rate R, byte rate R*C*2, block align C*2, 16 bits per sample, and a "data"
subchunk of declared length N*C*2. -/
theorem C7_container_header (b : AudioData)
    (hC : b.channels.length < 32768)
    (hR : b.sampleRate < 4294967296)
    (hBR : b.sampleRate * 2 * b.channels.length < 4294967296)
    (hLen : b.numFrames * b.channels.length * 2 + 44 < 4294967296) :
    (audioBufferToWav b).length = b.numFrames * b.channels.length * 2 + 44 ∧
    readU32 (audioBufferToWav b) 0 = 0x46464952 ∧
    readU32 (audioBufferToWav b) 4 = b.numFrames * b.channels.length * 2 + 44 - 8 ∧
    readU32 (audioBufferToWav b) 8 = 0x45564157 ∧
    readU32 (audioBufferToWav b) 12 = 0x20746d66 ∧
    readU32 (audioBufferToWav b) 16 = 16 ∧
    readU16 (audioBufferToWav b) 20 = 1 ∧
    readU16 (audioBufferToWav b) 22 = b.channels.length ∧
    readU32 (audioBufferToWav b) 24 = b.sampleRate ∧
    readU32 (audioBufferToWav b) 28 = b.sampleRate * b.channels.length * 2 ∧
    readU16 (audioBufferToWav b) 32 = b.channels.length * 2 ∧
    readU16 (audioBufferToWav b) 34 = 16 ∧
    readU32 (audioBufferToWav b) 36 = 0x61746164 ∧
    readU32 (audioBufferToWav b) 40 = b.numFrames * b.channels.length * 2 := by
  refine ⟨?_, wav_read_0 b, wav_read_4 b hLen, wav_read_8 b, wav_read_12 b,
    wav_read_16 b, wav_read_20 b, wav_read_22 b hC, wav_read_24 b hR,
    wav_read_28 b hBR, wav_read_32 b hC, wav_read_34 b, wav_read_36 b,
    wav_read_40 b hLen⟩
  rw [audioBufferToWav, List.length_append, wavHeader_length, wavDataBytes_length]
  ring

/-! ### Offline mixer: `mixAudioBuffers` (audioUtils.ts lines 43-65)

Only the shape of the buffers matters for claim C2.  The rendered length
is the `duration * sampleRate` argument passed to the `OfflineAudioContext`
constructor, truncated toward zero by the WebIDL `unsigned long`
conversion; the rendered buffer's duration is its length divided by its
sample rate. -/

/-- Shape of a decoded `AudioBuffer`. -/
structure BufShape where
  sampleRate : ℕ
  numberOfChannels : ℕ
  numFrames : ℕ

/-- Attribute `buffer.duration = buffer.length / buffer.sampleRate`. -/
def duration (b : BufShape) : ℚ := (b.numFrames : ℚ) / (b.sampleRate : ℚ)

/-- Lines 47-64: take the max of durations, sample rates and channel
counts, then render into an `OfflineAudioContext(channels,
duration * sampleRate, sampleRate)`. -/
def mixAudioBuffers (b1 b2 : BufShape) : BufShape :=
  { sampleRate := max b1.sampleRate b2.sampleRate
    numberOfChannels := max b1.numberOfChannels b2.numberOfChannels
    numFrames :=
      (⌊max (duration b1) (duration b2) *
        ((max b1.sampleRate b2.sampleRate : ℕ) : ℚ)⌋).toNat }

/-- Buffer of 44101 frames at 44100 Hz: 1.0000227 s, the longer input. -/
def mixBufA : BufShape := ⟨44100, 1, 44101⟩

/-- Buffer of 4800 frames at 48000 Hz: 0.1 s, the shorter input at the higher rate. -/
def mixBufB : BufShape := ⟨48000, 1, 4800⟩

/-- C2: the mixed duration is not always the max of the input durations:
`duration * sampleRate = 44101/44100 * 48000` is not an integer, the
context length truncates to 48001 frames, and 48001/48000 ≠ 44101/44100. -/
theorem C2_counterexample :
    duration (mixAudioBuffers mixBufA mixBufB) ≠
      max (duration mixBufA) (duration mixBufB) := by
  have hmax : max (duration mixBufA) (duration mixBufB) = 44101/44100 := by
    rw [duration, duration, mixBufA, mixBufB]
    rw [max_eq_left (by norm_num)]
    norm_num
  have hsr : ((max mixBufA.sampleRate mixBufB.sampleRate : ℕ) : ℚ) = 48000 := by
    rw [mixBufA, mixBufB]
    norm_num
  have hfloor : (⌊max (duration mixBufA) (duration mixBufB) *
      ((max mixBufA.sampleRate mixBufB.sampleRate : ℕ) : ℚ)⌋ : ℤ) = 48001 := by
    rw [hmax, hsr]
    norm_num
  have hd : duration (mixAudioBuffers mixBufA mixBufB) = 48001/48000 := by
    rw [duration, mixAudioBuffers, hfloor]
    rw [hsr, show ((48001 : ℤ)).toNat = 48001 from rfl]
    norm_num
  rw [hd, hmax]
  norm_num

/-- C2 (amended): the mix's sample rate and channel count are the max of
the inputs', and its frame count is ⌊max(durations)·max(rates)⌋, so the
mixed duration equals max(durations) exactly when that product is an
integer (in particular whenever the longer input has the maximal rate,
e.g. equal-rate inputs); otherwise it is truncated to a whole number of
frames of the output rate. -/
theorem C2_amended_mix_shape (a b : BufShape)
    (ha : 0 < a.sampleRate) (hb : 0 < b.sampleRate) :
    (mixAudioBuffers a b).sampleRate = max a.sampleRate b.sampleRate ∧
    (mixAudioBuffers a b).numberOfChannels = max a.numberOfChannels b.numberOfChannels ∧
    ((max (duration a) (duration b) * ((max a.sampleRate b.sampleRate : ℕ) : ℚ)).den = 1 →
      duration (mixAudioBuffers a b) = max (duration a) (duration b)) := by
  refine ⟨rfl, rfl, fun hden => ?_⟩
  have hs : (0 : ℚ) < ((max a.sampleRate b.sampleRate : ℕ) : ℚ) := by
    have h1 : 0 < max a.sampleRate b.sampleRate := lt_of_lt_of_le ha (le_max_left _ _)
    exact_mod_cast h1
  have hd0 : 0 ≤ max (duration a) (duration b) := by
    have h1 : (0:ℚ) ≤ duration a := div_nonneg (by positivity) (by positivity)
    exact le_trans h1 (le_max_left _ _)
  set p : ℚ := max (duration a) (duration b) * ((max a.sampleRate b.sampleRate : ℕ) : ℚ)
    with hp
  have hprod : (0 : ℚ) ≤ p := mul_nonneg hd0 (le_of_lt hs)
  have hint : ((p.num : ℚ)) = p := by
    conv_rhs => rw [← Rat.num_div_den p]
    rw [hden, Nat.cast_one, div_one]
  have hnum0 : 0 ≤ p.num := Rat.num_nonneg.mpr hprod
  have hfl : ⌊p⌋ = p.num := by
    conv_lhs => rw [← hint]
    rw [Int.floor_intCast]
  have hdur : duration (mixAudioBuffers a b) =
      ((⌊p⌋.toNat : ℕ) : ℚ) / ((max a.sampleRate b.sampleRate : ℕ) : ℚ) := rfl
  have hcast : ((⌊p⌋.toNat : ℕ) : ℚ) = p := by
    rw [hfl]
    rw [show ((p.num.toNat : ℕ) : ℚ) = ((p.num.toNat : ℤ) : ℚ) from by push_cast; ring]
    rw [Int.toNat_of_nonneg hnum0]
    exact hint
  rw [hdur, hcast, hp]
  rw [mul_div_assoc, div_self (ne_of_gt hs), mul_one]

/-- Equal-rate inputs of 1 s and 0.5 s: the mix is 44100 frames at
44100 Hz and 2 channels, i.e. exactly 1 s. -/
def mixWitA : BufShape := ⟨44100, 1, 44100⟩

/-- Second witness input: 22050 frames at 44100 Hz, 2 channels. -/
def mixWitB : BufShape := ⟨44100, 2, 22050⟩

/-- C2 amended, at concrete equal-rate inputs. -/
theorem C2_amended_mix_shape_witness :
    (mixAudioBuffers mixWitA mixWitB).sampleRate = max mixWitA.sampleRate mixWitB.sampleRate ∧
    (mixAudioBuffers mixWitA mixWitB).numberOfChannels =
      max mixWitA.numberOfChannels mixWitB.numberOfChannels ∧
    ((max (duration mixWitA) (duration mixWitB) *
        ((max mixWitA.sampleRate mixWitB.sampleRate : ℕ) : ℚ)).den = 1 →
      duration (mixAudioBuffers mixWitA mixWitB) =
        max (duration mixWitA) (duration mixWitB)) :=
  C2_amended_mix_shape mixWitA mixWitB (by decide) (by decide)

/-! ### Source router: `UnifiedAudioGraph` (audioUtils.ts lines 200-336)

State observable through the class fields and the audio-graph edges:
`source` (the attached source node), `activeStream` (the owned
`MediaStream`, by id), and whether the analyser output has been connected
to `audioContext.destination` (done by `connectElement`, never undone by
`disconnect`, which only disconnects `this.source`).  Platform outcomes
(capability presence, permission grant, track lists) are inputs.  Each
operation returns the new state, the success result where the code
returns one, and the ids of the streams whose tracks it stopped. -/

/-- A source node attached to the analyser, with the underlying stream or
element identity. -/
inductive SrcNode where
  | mic (streamId : ℕ)
  | sys (streamId : ℕ)
  | elem (elementId : ℕ)
deriving DecidableEq

/-- Observable `UnifiedAudioGraph` state. -/
structure GraphState where
  source : Option SrcNode
  activeStream : Option ℕ
  analyserToDest : Bool
deriving DecidableEq

/-- State after the constructor (lines 209-215). -/
def initialGraph : GraphState := ⟨none, none, false⟩

/-- Operation `disconnect()` (lines 301-310): detach the source, stop the owned
stream's tracks, clear both; the analyser-to-destination edge is NOT
severed.  Returns the new state and the stopped stream ids. -/
def disconnect (g : GraphState) : GraphState × List ℕ :=
  ({ source := none, activeStream := none, analyserToDest := g.analyserToDest },
    g.activeStream.toList)

/-- Platform outcome for `connectMicrophone`: is
`navigator.mediaDevices.getUserMedia` present, and the granted stream id
(none = permission denied / error). -/
structure MicEnv where
  supported : Bool
  granted : Option ℕ

/-- Operation `connectMicrophone()` (lines 224-244): resume, disconnect, check
capability, await `getUserMedia`; on grant attach the stream source to the
analyser only. -/
def connectMicrophone (g : GraphState) (env : MicEnv) : GraphState × Bool × List ℕ :=
  let gs := disconnect g
  if env.supported then
    match env.granted with
    | none => (gs.1, false, gs.2)
    | some sid =>
      ({ gs.1 with source := some (SrcNode.mic sid), activeStream := some sid },
        true, gs.2)
  else (gs.1, false, gs.2)

/-- A granted display-capture stream: its id and how many audio tracks it
carries. -/
structure DisplayStream where
  id : ℕ
  audioTracks : ℕ
deriving DecidableEq

/-- Platform outcome for `connectSystemAudio`. -/
structure SysEnv where
  supported : Bool
  granted : Option DisplayStream

/-- Operation `connectSystemAudio()` (lines 247-287): resume, disconnect, check
capability, await `getDisplayMedia`; reject a stream with no audio track
(stopping all its tracks); otherwise attach the stream source to the
analyser only. -/
def connectSystemAudio (g : GraphState) (env : SysEnv) : GraphState × Bool × List ℕ :=
  let gs := disconnect g
  if env.supported then
    match env.granted with
    | none => (gs.1, false, gs.2)
    | some st =>
      if st.audioTracks = 0 then (gs.1, false, gs.2 ++ [st.id])
      else
        ({ gs.1 with source := some (SrcNode.sys st.id), activeStream := some st.id },
          true, gs.2)
  else (gs.1, false, gs.2)

/-- Operation `connectElement(el)` (lines 289-299): resume, then inside a try block
disconnect, create the element source (throws if the element is already
tapped: `dup`), attach it to the analyser and connect the analyser to the
destination.  Returns the new state and the stopped stream ids. -/
def connectElement (g : GraphState) (e : ℕ) (dup : Bool) : GraphState × List ℕ :=
  let gs := disconnect g
  if dup then (gs.1, gs.2)
  else ({ source := some (SrcNode.elem e), activeStream := none, analyserToDest := true },
    gs.2)

/-- Is a microphone source attached to the analyser? -/
def micAttached (g : GraphState) : Bool :=
  match g.source with
  | some (SrcNode.mic _) => true
  | _ => false

/-- Does a signal path from the microphone reach
`audioContext.destination`?  The microphone feeds the analyser, and the
analyser passes audio through to the destination whenever it has been
connected to it. -/
def micReachesDest (g : GraphState) : Bool :=
  micAttached g && g.analyserToDest

/-- C3: a failed connect does not leave the router as it was.  From the
state produced by a successful `connectElement`, a `connectMicrophone`
that fails the capability check returns false but has already torn the
element source down: the state differs from the pre-call state. -/
theorem C3_counterexample :
    (connectMicrophone (connectElement initialGraph 1 false).1 ⟨false, none⟩).2.1 = false ∧
    (connectMicrophone (connectElement initialGraph 1 false).1 ⟨false, none⟩).1 ≠
      (connectElement initialGraph 1 false).1 := by
  decide

/-- C3 (amended): each connect operation performs a full `disconnect()`
before attempting acquisition, so a failed connect leaves the router in
the disconnected state — no source attached, no owned stream — rather
than in the pre-call state; the streams stopped on the way in are exactly
the previously owned one (plus, for system audio, a captured stream with
no audio track). -/
theorem C3_amended_fail_disconnected (g : GraphState) (menv : MicEnv) (senv : SysEnv)
    (e : ℕ) (dup : Bool) :
    ((connectMicrophone g menv).2.1 = false →
      (connectMicrophone g menv).1.source = none ∧
      (connectMicrophone g menv).1.activeStream = none) ∧
    ((connectSystemAudio g senv).2.1 = false →
      (connectSystemAudio g senv).1.source = none ∧
      (connectSystemAudio g senv).1.activeStream = none) ∧
    (dup = true →
      (connectElement g e dup).1.source = none ∧
      (connectElement g e dup).1.activeStream = none) := by
  refine ⟨?_, ?_, ?_⟩
  · rcases menv with ⟨sup, gr⟩
    cases sup <;> cases gr <;> simp [connectMicrophone, disconnect]
  · rcases senv with ⟨sup, gr⟩
    cases sup
    · cases gr <;> simp [connectSystemAudio, disconnect]
    · cases gr with
      | none => simp [connectSystemAudio, disconnect]
      | some st =>
        by_cases ht : st.audioTracks = 0 <;>
          simp [connectSystemAudio, disconnect, ht]
  · intro hd
    rw [connectElement, hd]
    exact ⟨rfl, rfl⟩

/-- C3 amended, at concrete failing calls. -/
theorem C3_amended_fail_disconnected_witness :
    ((connectMicrophone initialGraph ⟨false, none⟩).1.source = none ∧
      (connectMicrophone initialGraph ⟨false, none⟩).1.activeStream = none) ∧
    ((connectSystemAudio initialGraph ⟨true, some ⟨9, 0⟩⟩).1.source = none ∧
      (connectSystemAudio initialGraph ⟨true, some ⟨9, 0⟩⟩).1.activeStream = none) ∧
    ((connectElement initialGraph 5 true).1.source = none ∧
      (connectElement initialGraph 5 true).1.activeStream = none) := by
  have h := C3_amended_fail_disconnected initialGraph ⟨false, none⟩ ⟨true, some ⟨9, 0⟩⟩ 5 true
  exact ⟨h.1 (by decide), h.2.1 (by decide), h.2.2 (by decide)⟩

/-- C4: after `connectElement` the analyser stays connected to the
destination (`disconnect()` never severs that edge), so a subsequent
successful `connectMicrophone` leaves a live path microphone → analyser →
destination: the microphone IS routed to audible output, contradicting
the claim (and the code's own comment at line 237). -/
theorem C4_bug_mic_reaches_destination :
    (connectMicrophone (connectElement initialGraph 1 false).1 ⟨true, some 7⟩).2.1 = true ∧
    micReachesDest
      (connectMicrophone (connectElement initialGraph 1 false).1 ⟨true, some 7⟩).1 = true := by
  decide

/-- C9: system-audio capture with zero audio tracks is rejected and the
captured stream is stopped, but the router state is NOT unchanged: the
initial `disconnect()` already tore down the previously connected
microphone source. -/
theorem C9_counterexample :
    (connectSystemAudio (connectMicrophone initialGraph ⟨true, some 7⟩).1
      ⟨true, some ⟨9, 0⟩⟩).2.1 = false ∧
    9 ∈ (connectSystemAudio (connectMicrophone initialGraph ⟨true, some 7⟩).1
      ⟨true, some ⟨9, 0⟩⟩).2.2 ∧
    (connectSystemAudio (connectMicrophone initialGraph ⟨true, some 7⟩).1
      ⟨true, some ⟨9, 0⟩⟩).1 ≠ (connectMicrophone initialGraph ⟨true, some 7⟩).1 := by
  decide

/-- C9 (amended): on a captured stream with zero audio tracks,
`connectSystemAudio` returns failure, stops all tracks of that stream
(after stopping any previously owned stream), and leaves the router
disconnected — source and owned stream cleared; only when the router was
already idle is its state unchanged. -/
theorem C9_amended_reject_no_audio (g : GraphState) (st : DisplayStream)
    (h : st.audioTracks = 0) :
    (connectSystemAudio g ⟨true, some st⟩).2.1 = false ∧
    (connectSystemAudio g ⟨true, some st⟩).2.2 = g.activeStream.toList ++ [st.id] ∧
    (connectSystemAudio g ⟨true, some st⟩).1 =
      { source := none, activeStream := none, analyserToDest := g.analyserToDest } := by
  rw [connectSystemAudio]
  simp [disconnect, h]

/-- C9 amended, from a microphone-connected prior state. -/
theorem C9_amended_reject_no_audio_witness :
    (connectSystemAudio (connectMicrophone initialGraph ⟨true, some 7⟩).1
      ⟨true, some ⟨9, 0⟩⟩).2.1 = false ∧
    (connectSystemAudio (connectMicrophone initialGraph ⟨true, some 7⟩).1
      ⟨true, some ⟨9, 0⟩⟩).2.2 =
      ((connectMicrophone initialGraph ⟨true, some 7⟩).1).activeStream.toList ++ [9] ∧
    (connectSystemAudio (connectMicrophone initialGraph ⟨true, some 7⟩).1
      ⟨true, some ⟨9, 0⟩⟩).1 =
      { source := none, activeStream := none,
        analyserToDest :=
          ((connectMicrophone initialGraph ⟨true, some 7⟩).1).analyserToDest } :=
  C9_amended_reject_no_audio (connectMicrophone initialGraph ⟨true, some 7⟩).1 ⟨9, 0⟩ rfl

/-- C7 at the concrete scenario buffer (2 channels, 2 frames, 44100 Hz). -/
theorem C7_container_header_witness :
    (audioBufferToWav wavTestBuf).length = 2 * 2 * 2 + 44 ∧
    readU32 (audioBufferToWav wavTestBuf) 0 = 0x46464952 ∧
    readU32 (audioBufferToWav wavTestBuf) 4 = 2 * 2 * 2 + 44 - 8 ∧
    readU32 (audioBufferToWav wavTestBuf) 8 = 0x45564157 ∧
    readU32 (audioBufferToWav wavTestBuf) 12 = 0x20746d66 ∧
    readU32 (audioBufferToWav wavTestBuf) 16 = 16 ∧
    readU16 (audioBufferToWav wavTestBuf) 20 = 1 ∧
    readU16 (audioBufferToWav wavTestBuf) 22 = 2 ∧
    readU32 (audioBufferToWav wavTestBuf) 24 = 44100 ∧
    readU32 (audioBufferToWav wavTestBuf) 28 = 44100 * 2 * 2 ∧
    readU16 (audioBufferToWav wavTestBuf) 32 = 2 * 2 ∧
    readU16 (audioBufferToWav wavTestBuf) 34 = 16 ∧
    readU32 (audioBufferToWav wavTestBuf) 36 = 0x61746164 ∧
    readU32 (audioBufferToWav wavTestBuf) 40 = 2 * 2 * 2 :=
  C7_container_header wavTestBuf (by decide) (by decide) (by decide) (by decide)

/-! ### Logarithmic banding: `AudioVisualizer.drawBars` (audioUtils.ts
lines 157-193)

The analyser has `fftSize = 4096`, so `frequencyBinCount = 2048`;
`minBin = 1` and `maxBin = frequencyBinCount - 1 = 2047` (lines 173-174).
Bar `i`'s bin edges are
`Math.floor(minBin * Math.pow(maxBin / minBin, i / numBars))` — in exact
real arithmetic, with `minBin = 1`, the integer part of
`maxBin ^ (i / numBars)`, i.e. the unique `a` with
`a ^ numBars ≤ maxBin ^ i < (a + 1) ^ numBars`.  `iroot` computes that
integer part by a bounded upward search. -/

/-- Climb from 0, stepping to `prev + 1` while `(prev + 1) ^ K ≤ x`. -/
def irootAux (K x : ℕ) : ℕ → ℕ
  | 0 => 0
  | n + 1 =>
    let prev := irootAux K x n
    if (prev + 1) ^ K ≤ x then prev + 1 else prev

/-- Integer root `iroot B x` = ⌊x ^ (1/B)⌋ for `B ≥ 1` (the `max B 1` guard only makes
the function total; every use has `B ≥ 1`). -/
def iroot (B x : ℕ) : ℕ := irootAux (max B 1) x x

lemma irootAux_invariant (K x : ℕ) (hK : 1 ≤ K) (n : ℕ) :
    (irootAux K x n) ^ K ≤ x ∧
      (irootAux K x n = n ∨ x < (irootAux K x n + 1) ^ K) := by
  induction n with
  | zero =>
    refine ⟨?_, Or.inl rfl⟩
    show (0 : ℕ) ^ K ≤ x
    rw [zero_pow (by omega : K ≠ 0)]
    exact Nat.zero_le x
  | succ n ih =>
    simp only [irootAux]
    by_cases hc : (irootAux K x n + 1) ^ K ≤ x
    · rw [if_pos hc]
      refine ⟨hc, ?_⟩
      rcases ih.2 with he | hlt
      · exact Or.inl (by omega)
      · exact absurd hc (by omega)
    · rw [if_neg hc]
      exact ⟨ih.1, Or.inr (by omega)⟩

lemma iroot_pow_le (B x : ℕ) (hB : 1 ≤ B) : (iroot B x) ^ B ≤ x := by
  rw [iroot, max_eq_left hB]
  exact (irootAux_invariant B x hB x).1

lemma lt_iroot_succ_pow (B x : ℕ) (hB : 1 ≤ B) : x < (iroot B x + 1) ^ B := by
  rw [iroot, max_eq_left hB]
  rcases (irootAux_invariant B x hB x).2 with he | hlt
  · rw [he]
    calc x < x + 1 := Nat.lt_succ_self x
    _ ≤ (x + 1) ^ B := Nat.le_self_pow (by omega) _
  · exact hlt

lemma iroot_unique (B x a : ℕ) (hB : 1 ≤ B) (h1 : a ^ B ≤ x) (h2 : x < (a + 1) ^ B) :
    iroot B x = a := by
  rcases lt_trichotomy (iroot B x) a with h | h | h
  · exfalso
    have hle : (iroot B x + 1) ^ B ≤ a ^ B := Nat.pow_le_pow_left (by omega) B
    have := lt_iroot_succ_pow B x hB
    omega
  · exact h
  · exfalso
    have hle : (a + 1) ^ B ≤ (iroot B x) ^ B := Nat.pow_le_pow_left (by omega) B
    have := iroot_pow_le B x hB
    omega

lemma iroot_mono (B : ℕ) (hB : 1 ≤ B) {x y : ℕ} (h : x ≤ y) : iroot B x ≤ iroot B y := by
  by_contra hc
  push_neg at hc
  have h1 : (iroot B y + 1) ^ B ≤ (iroot B x) ^ B := Nat.pow_le_pow_left (by omega) B
  have h2 := lt_iroot_succ_pow B y hB
  have h3 := iroot_pow_le B x hB
  omega

/-- Line 177: `Math.floor(minBin * Math.pow(maxBin / minBin, i / numBars))`
with `minBin = 1`. -/
def startBin (numBars maxBin i : ℕ) : ℕ := iroot numBars (maxBin ^ i)

/-- Line 178: the same expression at `i + 1`. -/
def endBin (numBars maxBin i : ℕ) : ℕ := iroot numBars (maxBin ^ (i + 1))

/-- Line 181: `Math.max(endBin, startBin + 1)`. -/
def safeEndBin (numBars maxBin i : ℕ) : ℕ :=
  max (endBin numBars maxBin i) (startBin numBars maxBin i + 1)

/-- The indices scanned by the loop at line 183
(`j = startBin; j < safeEndBin && j < dataArray.length; j++`). -/
def scanIndices (numBars maxBin len i : ℕ) : List ℕ :=
  List.range' (startBin numBars maxBin i)
    (min (safeEndBin numBars maxBin i) len - startBin numBars maxBin i)

/-- Lines 180-185: the bar value is the maximum magnitude over the
scanned bins. -/
def barMaxVal (data : List ℕ) (numBars maxBin i : ℕ) : ℕ :=
  (scanIndices numBars maxBin data.length i).foldl (fun m j => max m (data.getD j 0)) 0

/-- Bin `b` lies in bar `i`'s clamped span `[startBin, safeEndBin)`. -/
def coveredBy (numBars maxBin i b : ℕ) : Prop :=
  startBin numBars maxBin i ≤ b ∧ b < safeEndBin numBars maxBin i

/-- Bin `b` lies in some bar's clamped span. -/
def covered (numBars maxBin b : ℕ) : Prop :=
  ∃ i, i < numBars ∧ coveredBy numBars maxBin i b

lemma startBin_zero (B M : ℕ) (hB : 1 ≤ B) : startBin B M 0 = 1 := by
  rw [startBin, pow_zero]
  have h2 : (1 : ℕ) < 2 ^ B := Nat.one_lt_two_pow_iff.mpr (by omega)
  exact iroot_unique B 1 1 hB (by norm_num) (by simpa using h2)

lemma startBin_numBars (B M : ℕ) (hB : 1 ≤ B) : startBin B M B = M := by
  rw [startBin]
  exact iroot_unique B (M ^ B) M hB le_rfl
    (Nat.pow_lt_pow_left (Nat.lt_succ_self M) (by omega))

lemma startBin_mono (B M : ℕ) (hB : 1 ≤ B) (hM : 1 ≤ M) {i j : ℕ} (h : i ≤ j) :
    startBin B M i ≤ startBin B M j :=
  iroot_mono B hB (Nat.pow_le_pow_right hM h)

lemma startBin_lt_maxBin (B M i : ℕ) (hB : 1 ≤ B) (hM : 2 ≤ M) (hi : i < B) :
    startBin B M i < M := by
  have h1 : (startBin B M i) ^ B ≤ M ^ i := iroot_pow_le B (M ^ i) hB
  have h2 : M ^ i < M ^ B := Nat.pow_lt_pow_right (by omega) hi
  by_contra hc
  push_neg at hc
  have h3 : M ^ B ≤ (startBin B M i) ^ B := Nat.pow_le_pow_left hc B
  omega

lemma endBin_le_maxBin (B M i : ℕ) (hB : 1 ≤ B) (hM : 1 ≤ M) (hi : i < B) :
    endBin B M i ≤ M := by
  have h1 : endBin B M i ≤ startBin B M B :=
    iroot_mono B hB (Nat.pow_le_pow_right hM (by omega))
  rwa [startBin_numBars B M hB] at h1

lemma safeEndBin_mono (B M : ℕ) (hB : 1 ≤ B) (hM : 1 ≤ M) {i j : ℕ} (h : i ≤ j) :
    safeEndBin B M i ≤ safeEndBin B M j := by
  have h1 : endBin B M i ≤ endBin B M j := iroot_mono B hB
    (Nat.pow_le_pow_right hM (by omega))
  have h2 : startBin B M i ≤ startBin B M j := startBin_mono B M hB hM h
  exact max_le_max h1 (by omega)

lemma covered_below (B M : ℕ) (hB : 1 ≤ B) :
    ∀ i, i ≤ B → ∀ b, 1 ≤ b → b < startBin B M i →
      ∃ k, k < i ∧ coveredBy B M k b := by
  intro i
  induction i with
  | zero =>
    intro _ b hb1 hlt
    rw [startBin_zero B M hB] at hlt
    omega
  | succ i ih =>
    intro hiB b hb1 hlt
    by_cases hbi : b < startBin B M i
    · obtain ⟨k, hk, hcov⟩ := ih (by omega) b hb1 hbi
      exact ⟨k, by omega, hcov⟩
    · push_neg at hbi
      refine ⟨i, by omega, hbi, ?_⟩
      show b < max (endBin B M i) (startBin B M i + 1)
      exact lt_of_lt_of_le hlt (le_max_left _ _)

lemma covered_of_in_range (B M b : ℕ) (hB : 1 ≤ B) (hM : 2 ≤ M)
    (hb1 : 1 ≤ b) (hbM : b < M) : covered B M b := by
  obtain ⟨k, hk, hcov⟩ := covered_below B M hB B le_rfl b hb1
    (by rw [startBin_numBars B M hB]; omega)
  exact ⟨k, hk, hcov⟩

lemma not_covered_maxBin (B M : ℕ) (hB : 1 ≤ B) (hM : 2 ≤ M) : ¬ covered B M M := by
  rintro ⟨i, hiB, _, hlt⟩
  have h1 : endBin B M i ≤ M := endBin_le_maxBin B M i hB (by omega) hiB
  have h2 : startBin B M i < M := startBin_lt_maxBin B M i hB hM hiB
  rw [safeEndBin] at hlt
  rcases max_cases (endBin B M i) (startBin B M i + 1) with ⟨he, _⟩ | ⟨he, _⟩ <;>
    rw [he] at hlt <;> omega

/-- C5: with transform size 4096 (maxBin = 2047) and 64 target bars, the
top usable bin 2047 = maxBin lies in no bar's clamped span: every span's
upper bound is at most 2047 and spans are half-open, so the claimed
coverage of all of [1, maxBin] fails at bin maxBin. -/
theorem C5_counterexample : ¬ covered 64 2047 2047 :=
  not_covered_maxBin 64 2047 (by norm_num) (by norm_num)

/-- C5 (amended): for transform size 4096 (maxBin = 2047) and 64 target
bars, bar 0's span starts at bin 1; span endpoints are non-decreasing in
the bar index (not strictly increasing: low-index bars can coincide); and
every bin in [1, maxBin - 1] = [1, 2046] is covered by at least one bar
span, while bin maxBin = 2047 is covered by none. -/
theorem C5_amended_banding :
    startBin 64 2047 0 = 1 ∧
    (∀ i j, i ≤ j → startBin 64 2047 i ≤ startBin 64 2047 j) ∧
    (∀ i j, i ≤ j → safeEndBin 64 2047 i ≤ safeEndBin 64 2047 j) ∧
    (∀ b, 1 ≤ b → b ≤ 2046 → covered 64 2047 b) ∧
    ¬ covered 64 2047 2047 :=
  ⟨startBin_zero 64 2047 (by norm_num),
   fun _ _ h => startBin_mono 64 2047 (by norm_num) (by norm_num) h,
   fun _ _ h => safeEndBin_mono 64 2047 (by norm_num) (by norm_num) h,
   fun b hb1 hb2 => covered_of_in_range 64 2047 b (by norm_num) (by norm_num) hb1
     (by omega),
   not_covered_maxBin 64 2047 (by norm_num) (by norm_num)⟩

/-- C5 amended, at concrete bars and bins. -/
theorem C5_amended_banding_witness :
    startBin 64 2047 0 = 1 ∧
    startBin 64 2047 3 ≤ startBin 64 2047 10 ∧
    safeEndBin 64 2047 3 ≤ safeEndBin 64 2047 10 ∧
    covered 64 2047 100 :=
  ⟨C5_amended_banding.1,
   C5_amended_banding.2.1 3 10 (by norm_num),
   C5_amended_banding.2.2.1 3 10 (by norm_num),
   C5_amended_banding.2.2.2.1 100 (by norm_num) (by norm_num)⟩

/-- C10: the scan loop for bar `i` touches only indices `j` with
`startBin ≤ j < min(safeEndBin, dataArray.length)`, so every read is
within the array bounds, and the clamped span `[startBin, safeEndBin)` is
never empty (`safeEndBin ≥ startBin + 1` by construction). -/
theorem C10_scan_in_bounds (data : List ℕ) (numBars maxBin i : ℕ) :
    (∀ j ∈ scanIndices numBars maxBin data.length i,
      startBin numBars maxBin i ≤ j ∧ j < data.length) ∧
    startBin numBars maxBin i < safeEndBin numBars maxBin i := by
  constructor
  · intro j hj
    rw [scanIndices, List.mem_range'_1] at hj
    omega
  · exact lt_of_lt_of_le (Nat.lt_succ_self _) (le_max_right _ _)

/-- C10 at a concrete bar and data array: bar 0 for `numBars = 2`,
`maxBin = 4` scans exactly bin 1 of a 3-element array. -/
theorem C10_scan_in_bounds_witness :
    (startBin 2 4 0 ≤ 1 ∧ 1 < ([5, 6, 7] : List ℕ).length) ∧
    startBin 2 4 0 < safeEndBin 2 4 0 :=
  ⟨(C10_scan_in_bounds [5, 6, 7] 2 4 0).1 1 (by decide),
   (C10_scan_in_bounds [5, 6, 7] 2 4 0).2⟩

/-! ### Bass energy: `UnifiedAudioGraph.getBassEnergy` (audioUtils.ts
lines 326-335)

The analyser's byte frequency data has 2048 bins (fftSize 4096).  The
code sums `data[1]` through `data[8]` and divides by 8, whatever the
source sample rate is, and returns that byte-scale mean directly. -/

/-- Lines 329-334: `sum = data[1] + ... + data[8]; return sum / 8`. -/
def getBassEnergy (data : List ℕ) : ℚ :=
  (((List.range' 1 8).map fun i => ((data.getD i 0 : ℕ) : ℚ)).sum) / 8

/-- Claim C8's bin set, from the spec's words: all bins whose center
frequency `k * sampleRate / 4096` lies in [10, 90] Hz (the inequalities
cleared of the positive denominator 4096). -/
def bassBinsSpecC8 (sampleRate : ℕ) : List ℕ :=
  (List.range 2048).filter fun k =>
    10 * 4096 ≤ k * sampleRate ∧ k * sampleRate ≤ 90 * 4096

/-- Claim C8's feature, from the spec's words: the arithmetic mean of the
magnitudes of those bins, normalized from byte scale to [0, 1]. -/
def bassEnergySpecC8 (sampleRate : ℕ) (data : List ℕ) : ℚ :=
  ((((bassBinsSpecC8 sampleRate).map fun k => ((data.getD k 0 : ℕ) : ℚ)).sum) /
    ((bassBinsSpecC8 sampleRate).length : ℚ)) / 255

lemma range_one_eight : List.range' 1 8 = [1, 2, 3, 4, 5, 6, 7, 8] := rfl

set_option maxRecDepth 40000 in
lemma bassBins_48000 : bassBinsSpecC8 48000 = [1, 2, 3, 4, 5, 6, 7] := by decide

set_option maxRecDepth 40000 in
lemma bassBins_44100 : bassBinsSpecC8 44100 = [1, 2, 3, 4, 5, 6, 7, 8] := by decide

/-- C8: at source sample rate 48000 the spec's bin set is 1..7 (bin 8 is
centered at 93.75 Hz > 90 Hz) and its mean is normalized to [0,1], but
the code always averages bins 1..8 and returns the byte-scale value: on
all-255 data the code yields 255, the spec's feature 1. -/
theorem C8_counterexample :
    getBassEnergy (List.replicate 9 255) = 255 ∧
    bassEnergySpecC8 48000 (List.replicate 9 255) = 1 ∧
    getBassEnergy (List.replicate 9 255) ≠
      bassEnergySpecC8 48000 (List.replicate 9 255) := by
  have hcode : getBassEnergy (List.replicate 9 255) = 255 := by
    rw [getBassEnergy, range_one_eight]
    norm_num [List.getD, List.replicate]
  have hspec : bassEnergySpecC8 48000 (List.replicate 9 255) = 1 := by
    rw [bassEnergySpecC8, bassBins_48000]
    norm_num [List.getD, List.replicate]
  refine ⟨hcode, hspec, ?_⟩
  rw [hcode, hspec]
  norm_num

lemma getD_le_of_all_le (data : List ℕ) (h : ∀ v ∈ data, v ≤ 255) (i : ℕ) :
    data.getD i 0 ≤ 255 := by
  by_cases hi : i < data.length
  · rw [List.getD_eq_getElem data 0 hi]
    exact h _ (List.getElem_mem hi)
  · rw [List.getD_eq_default data 0 (by omega)]
    omega

/-- C8 (amended): `getBassEnergy` averages the byte magnitudes of the
fixed bins 1..8 regardless of the source sample rate and returns the
byte-scale mean, a value in [0, 255], not rescaled to [0, 1]; the fixed
bin set agrees with the spec's [10, 90] Hz rule only at sample rates
around 44100 Hz, where the code's value is exactly 255 times the spec's
normalized feature. -/
theorem C8_amended_bass (data : List ℕ) (h : ∀ v ∈ data, v ≤ 255) :
    0 ≤ getBassEnergy data ∧ getBassEnergy data ≤ 255 ∧
    getBassEnergy data = 255 * bassEnergySpecC8 44100 data := by
  have hb : ∀ i : ℕ, ((data.getD i 0 : ℕ) : ℚ) ≤ 255 ∧ (0 : ℚ) ≤ ((data.getD i 0 : ℕ) : ℚ) :=
    fun i => ⟨by exact_mod_cast getD_le_of_all_le data h i, by positivity⟩
  refine ⟨?_, ?_, ?_⟩
  · rw [getBassEnergy]
    have hsum : (0 : ℚ) ≤ (((List.range' 1 8).map
        fun i => ((data.getD i 0 : ℕ) : ℚ)).sum) := by
      rw [range_one_eight]
      simp only [List.map_cons, List.map_nil, List.sum_cons, List.sum_nil]
      have h1 := (hb 1).2
      have h2 := (hb 2).2
      have h3 := (hb 3).2
      have h4 := (hb 4).2
      have h5 := (hb 5).2
      have h6 := (hb 6).2
      have h7 := (hb 7).2
      have h8 := (hb 8).2
      linarith
    positivity
  · rw [getBassEnergy, range_one_eight]
    simp only [List.map_cons, List.map_nil, List.sum_cons, List.sum_nil]
    rw [div_le_iff₀ (by norm_num : (0:ℚ) < 8)]
    have h1 := (hb 1).1
    have h2 := (hb 2).1
    have h3 := (hb 3).1
    have h4 := (hb 4).1
    have h5 := (hb 5).1
    have h6 := (hb 6).1
    have h7 := (hb 7).1
    have h8 := (hb 8).1
    linarith
  · rw [getBassEnergy, bassEnergySpecC8, bassBins_44100, range_one_eight]
    have hlen : (([1, 2, 3, 4, 5, 6, 7, 8] : List ℕ).length : ℚ) = 8 := by norm_num
    rw [hlen]
    ring

/-- C8 amended, on all-255 data. -/
theorem C8_amended_bass_witness :
    0 ≤ getBassEnergy (List.replicate 10 255) ∧
    getBassEnergy (List.replicate 10 255) ≤ 255 ∧
    getBassEnergy (List.replicate 10 255) =
      255 * bassEnergySpecC8 44100 (List.replicate 10 255) :=
  C8_amended_bass (List.replicate 10 255) (by decide)

end Visualizer
